import Mathlib

/-!
Verification development for the ParagonTV fleet synchronization engine.

The two scripts under scrutiny are
`src/resources/lib/ptv_push_to_satellites.py` (settings + cache push) and
`src/resources/lib/ptv_satellite_alignment.py` (full addon-bundle push).
Both iterate over up to five configured satellite IPs, probe each over ssh,
transfer payload units with rsync (mirror) or scp (recursive copy), and the
alignment variant additionally notifies the satellite and schedules a
delayed Kodi restart.

The embedding below models the side-effecting environment (Kodi settings,
local filesystem probes, and the exit status or raised exception of each
`subprocess.call`) as explicit oracle functions, and records every remote
or strategy-probe command the scripts issue as an `Event` in a trace.
-/

set_option autoImplicit false

namespace PTV

/-- Result of one `subprocess.call`: either the spawned command returned an
exit code, or the call itself raised an exception (e.g. `OSError`), which
the scripts catch in the per-satellite `try`/`except` block. -/
inductive CallRes where
  | raised
  | exit (code : Int)
  deriving DecidableEq

/-- Boolean success of a call: it did not raise and exited with status 0. -/
def CallRes.isOk : CallRes → Bool
  | .raised => false
  | .exit c => c == 0

/-- True when the call did not raise (its exit code may be anything). -/
def CallRes.notRaised : CallRes → Bool
  | .raised => false
  | .exit _ => true

/-- Commands the scripts issue. All but `rsyncCheck` (a local `which rsync`
probe of the controller host) travel over the remote ssh/scp channel to the
named satellite. `rsyncTransfer`/`scpTransfer` carry the payload-unit name. -/
inductive Event where
  | probe (ip : String)
  | mkdirCmd (ip : String)
  | rmCmd (ip : String) (addon : String)
  | rsyncTransfer (ip : String) (unit : String)
  | scpTransfer (ip : String) (unit : String)
  | notifyCmd (ip : String)
  | restartCmd (ip : String)
  | rsyncCheck
  deriving DecidableEq

def Event.isRestart : Event → Bool
  | .restartCmd _ => true
  | _ => false

def Event.isNotify : Event → Bool
  | .notifyCmd _ => true
  | _ => false

def Event.isRsyncCheck : Event → Bool
  | .rsyncCheck => true
  | _ => false

def Event.isRm : Event → Bool
  | .rmCmd _ _ => true
  | _ => false

def Event.isRsyncTransfer : Event → Bool
  | .rsyncTransfer _ _ => true
  | _ => false

def Event.isScpTransfer : Event → Bool
  | .scpTransfer _ _ => true
  | _ => false

/-- Any payload transfer command (rsync or scp). -/
def Event.isTransfer (e : Event) : Bool :=
  e.isRsyncTransfer || e.isScpTransfer

/-- Transfer command for one specific payload unit. -/
def Event.isTransferOf (u : String) : Event → Bool
  | .rsyncTransfer _ v => v == u
  | .scpTransfer _ v => v == u
  | _ => false

/-- Commands a single addon-unit push may issue, by strategy: with rsync
only the rsync transfer, without it the `rm -rf` and the scp transfer. -/
def unitEvent : Bool → Event → Bool
  | true, e => e.isRsyncTransfer
  | false, e => e.isRm || e.isScpTransfer

/-- Per-satellite record built by one loop iteration: the satellite's IP,
the commands issued for it, and whether `success_count` was incremented. -/
structure NodeOutcome where
  ip : String
  events : List Event
  counted : Bool
  deriving DecidableEq

/-- Result of a whole run: commands issued before the per-satellite loop,
the per-satellite outcomes in configured order, the final `success_count`,
and the Boolean return value of the script. -/
structure RunResult where
  preEvents : List Event
  outcomes : List NodeOutcome
  successCount : Nat
  result : Bool
  deriving DecidableEq

/-- Full command trace of a run, in program order. -/
def RunResult.trace (r : RunResult) : List Event :=
  r.preEvents ++ (r.outcomes.map NodeOutcome.events).flatten

/-- Result record of every early `return False` branch: no outcomes, no
commands, result `false`. -/
def abortRun : RunResult := ⟨[], [], 0, false⟩

/-- Satellite IPs read from settings slots SlaveIP1..SlaveIP5, keeping only
non-empty entries in slot order (both scripts, `for i in range(1, 6)` with
`if satellite_ip`). -/
def configuredIPs (slaveIP : Fin 5 → String) : List String :=
  ((List.finRange 5).map slaveIP).filter (fun s => s ≠ "")

/-- Shared per-satellite loop of both scripts: process every configured IP
in order with the per-node body `f`, threading the `success_count`
accumulator exactly as the Python `for` loop does (increment when the body
reports success), and never stopping early — the body's `try`/`except` and
`continue` paths are folded into the `NodeOutcome` it returns. -/
def syncLoop (f : String → NodeOutcome) : List String → Nat → Nat × List NodeOutcome
  | [], n => (n, [])
  | ip :: rest, n =>
    let o := f ip
    let r := syncLoop f rest (if o.counted then n + 1 else n)
    (r.1, o :: r.2)

/-! ### ptv_satellite_alignment.py -/

/-- Fixed addon list `ADDONS_TO_PUSH` of ptv_satellite_alignment.py
(lines 18-21): `(name, local path)` pairs. -/
def ADDONS_TO_PUSH : List (String × String) :=
  [("script.paragontv", "/storage/.kodi/addons/script.paragontv/"),
   ("script.paragon", "/storage/.kodi/addons/script.paragon/")]

/-- Environment (settings, local filesystem, and remote call results) for
one run of `satellite_alignment`. Remote-call oracles are keyed by
satellite IP (and addon name where the command names one), so one node's
results are independent data from another's. -/
structure AlignEnv where
  /-- Setting `EnableSatelliteAlignment`. -/
  enableSatelliteAlignment : String
  /-- Settings slots `SlaveIP1`..`SlaveIP5`. -/
  slaveIP : Fin 5 → String
  /-- Local `os.path.exists` on addon paths. -/
  pathExists : String → Bool
  /-- Exit code of the local `which rsync` probe (line 101, run once). -/
  whichRsync : Int
  /-- Result of the ssh echo connectivity test for an IP (lines 108-110). -/
  probe : String → CallRes
  /-- Result of `ssh root@ip rm -rf ...addon` (lines 50-52). -/
  rmCall : String → String → CallRes
  /-- Result of `rsync -az --delete <addon path> root@ip:...` (lines 44-46). -/
  rsyncPush : String → String → CallRes
  /-- Result of `scp -r <addon path> root@ip:...` (lines 55-57). -/
  scpPush : String → String → CallRes
  /-- Result of the remote `kodi-send` notification (lines 127-129). -/
  notifyCall : String → CallRes
  /-- Result of the backgrounded delayed `killall -9 kodi.bin` (lines 132-134). -/
  restartCall : String → CallRes

/-- Embedding of `push_addon_to_satellite` (ptv_satellite_alignment.py
lines 31-64). Returns the commands issued and `some b` for a normal return
of `b`, or `none` when a call raised (the exception propagates to the
caller's `except`). A missing local addon path returns `some true` with no
command issued (lines 36-38: "Not a failure, just skip"). With rsync the
addon tree is mirrored; without it the old remote addon folder is first
removed with `rm -rf` and then recursively copied with `scp -r`. -/
def push_addon_to_satellite (env : AlignEnv) (ip : String) (useRsync : Bool)
    (addon : String × String) : List Event × Option Bool :=
  if env.pathExists addon.2 = false then ([], some true)
  else if useRsync then
    match env.rsyncPush ip addon.1 with
    | .raised => ([.rsyncTransfer ip addon.1], none)
    | .exit c => ([.rsyncTransfer ip addon.1], some (c == 0))
  else
    match env.rmCall ip addon.1 with
    | .raised => ([.rmCmd ip addon.1], none)
    | .exit _ =>
      match env.scpPush ip addon.1 with
      | .raised => ([.rmCmd ip addon.1, .scpTransfer ip addon.1], none)
      | .exit c => ([.rmCmd ip addon.1, .scpTransfer ip addon.1], some (c == 0))

/-- Inner unit loop of `satellite_alignment` (lines 117-120): push every
addon of `ADDONS_TO_PUSH` in order, and-ing the per-addon results into
`all_pushed` (accumulator `acc`). Returns `none` when a push raised, which
aborts the rest of this node's units via the `except` handler. -/
def alignPushUnits (env : AlignEnv) (ip : String) (useRsync : Bool) :
    List (String × String) → Bool → List Event × Option Bool
  | [], acc => ([], some acc)
  | a :: rest, acc =>
    match push_addon_to_satellite env ip useRsync a with
    | (evs, none) => (evs, none)
    | (evs, some ok) =>
      let r := alignPushUnits env ip useRsync rest (acc && ok)
      (evs ++ r.1, r.2)

/-- Commands issued after `all_pushed` (lines 126-134): the remote
notification, then — unless the notification call raised — the backgrounded
delayed restart. `success_count` was already incremented before either. -/
def alignFinishEvents (env : AlignEnv) (ip : String) : List Event :=
  match env.notifyCall ip with
  | .raised => [.notifyCmd ip]
  | .exit _ => [.notifyCmd ip, .restartCmd ip]

/-- Body of one loop iteration after a successful connectivity test
(lines 116-138). -/
def alignNodeReachable (env : AlignEnv) (useRsync : Bool) (ip : String) : NodeOutcome :=
  match alignPushUnits env ip useRsync ADDONS_TO_PUSH true with
  | (evs, none) => ⟨ip, .probe ip :: evs, false⟩
  | (evs, some allPushed) =>
    if allPushed then ⟨ip, .probe ip :: (evs ++ alignFinishEvents env ip), true⟩
    else ⟨ip, .probe ip :: evs, false⟩

/-- One iteration of the satellite loop of `satellite_alignment`
(lines 103-141): connectivity test first; on a raised call or a non-zero
probe exit the iteration ends with only the probe issued and the node not
counted (`continue` / `except`). -/
def alignNode (env : AlignEnv) (useRsync : Bool) (ip : String) : NodeOutcome :=
  match env.probe ip with
  | .raised => ⟨ip, [.probe ip], false⟩
  | .exit c => if c = 0 then alignNodeReachable env useRsync ip else ⟨ip, [.probe ip], false⟩

/-- Embedding of `satellite_alignment` (ptv_satellite_alignment.py
lines 66-150): feature-flag check, IP collection, at-least-one-addon-path
check, single `which rsync` strategy probe, per-satellite loop, and the
`success_count > 0` return value. -/
def satellite_alignment (env : AlignEnv) : RunResult :=
  if env.enableSatelliteAlignment ≠ "true" then abortRun
  else if configuredIPs env.slaveIP = [] then abortRun
  else if ADDONS_TO_PUSH.filter (fun a => env.pathExists a.2) = [] then abortRun
  else
    let useRsync := env.whichRsync == 0
    let r := syncLoop (alignNode env useRsync) (configuredIPs env.slaveIP) 0
    ⟨[.rsyncCheck], r.2, r.1, decide (0 < r.1)⟩

/-! ### ptv_push_to_satellites.py -/

/-- Environment for one run of `push_to_satellites`. The `which rsync`
probe result is keyed by satellite IP because the script evaluates it
inside the per-satellite loop (line 97), once per satellite that reaches
its cache push. -/
structure PushEnv where
  /-- Setting `EnableMasterPush`. -/
  enableMasterPush : String
  /-- Settings slots `SlaveIP1`..`SlaveIP5`. -/
  slaveIP : Fin 5 → String
  /-- Local `os.path.exists` on `settings2.xml` (line 52). -/
  settingsExists : Bool
  /-- Local `os.path.exists` on the cache folder (line 57). -/
  cacheExists : Bool
  /-- Result of the ssh echo connectivity test (lines 70-72). -/
  probe : String → CallRes
  /-- Result of the remote `mkdir -p` (lines 79-81); its exit code is ignored. -/
  mkdirCall : String → CallRes
  /-- Result of the `scp` of settings2.xml (lines 85-87). -/
  scpSettings : String → CallRes
  /-- Exit code of the local `which rsync` probe in this IP's iteration (line 97). -/
  whichRsync : String → Int
  /-- Result of `rsync -az --delete <cache> root@ip:...` (lines 101-103). -/
  rsyncCache : String → CallRes
  /-- Result of the fallback `scp -r <cache> root@ip:...` (lines 106-108). -/
  scpCache : String → CallRes

/-- Cache-push step of one iteration (lines 96-108): probe `which rsync`
locally, then transfer the cache folder with rsync if available, else with
recursive scp. Returns the issued commands and whether the transfer call
succeeded (a raised transfer call lands in `except` and, like a non-zero
exit, leaves the node uncounted). -/
def pushCacheStep (env : PushEnv) (ip : String) : List Event × Bool :=
  if env.whichRsync ip == 0 then
    ([.rsyncCheck, .rsyncTransfer ip "cache"], (env.rsyncCache ip).isOk)
  else
    ([.rsyncCheck, .scpTransfer ip "cache"], (env.scpCache ip).isOk)

/-- Body of one loop iteration after a successful connectivity test
(lines 78-114): remote `mkdir -p` (result ignored unless the call raised),
scp of settings2.xml (`continue` on failure), then the cache push which
decides whether `success_count` is incremented. -/
def pushNodeReachable (env : PushEnv) (ip : String) : NodeOutcome :=
  match env.mkdirCall ip with
  | .raised => ⟨ip, [.probe ip, .mkdirCmd ip], false⟩
  | .exit _ =>
    match env.scpSettings ip with
    | .raised => ⟨ip, [.probe ip, .mkdirCmd ip, .scpTransfer ip "settings2.xml"], false⟩
    | .exit c =>
      if c = 0 then
        let r := pushCacheStep env ip
        ⟨ip, [.probe ip, .mkdirCmd ip, .scpTransfer ip "settings2.xml"] ++ r.1, r.2⟩
      else ⟨ip, [.probe ip, .mkdirCmd ip, .scpTransfer ip "settings2.xml"], false⟩

/-- One iteration of the satellite loop of `push_to_satellites`
(lines 65-117). -/
def pushNode (env : PushEnv) (ip : String) : NodeOutcome :=
  match env.probe ip with
  | .raised => ⟨ip, [.probe ip], false⟩
  | .exit c => if c = 0 then pushNodeReachable env ip else ⟨ip, [.probe ip], false⟩

/-- Embedding of `push_to_satellites` (ptv_push_to_satellites.py
lines 25-126): feature-flag check, IP collection, local existence checks
of settings2.xml and the cache folder (before any satellite is contacted),
per-satellite loop, and the `success_count > 0` return value. -/
def push_to_satellites (env : PushEnv) : RunResult :=
  if env.enableMasterPush ≠ "true" then abortRun
  else if configuredIPs env.slaveIP = [] then abortRun
  else if env.settingsExists = false then abortRun
  else if env.cacheExists = false then abortRun
  else
    let r := syncLoop (pushNode env) (configuredIPs env.slaveIP) 0
    ⟨[], r.2, r.1, decide (0 < r.1)⟩

/-! ### Destination-state semantics of the transfer commands

The transfer tools themselves are external to the repository; their
destination-state effect is modelled at the granularity of one destination
subtree, as a list of file names, following the channel semantics the
scripts rely on: `rsync --delete` mirrors (destination ends equal to the
source), `scp -r` copies additively (source files added or overwritten,
other destination files kept), `rm -rf` empties the subtree. -/

/-- Destination subtree after `rsync -az --delete SRC/ DEST`: mirrored,
extraneous destination files deleted. -/
def mirrorTransfer (src _dest : List String) : List String := src

/-- Destination subtree after `scp -r SRC DEST`: additive recursive copy —
every source file is present, and every pre-existing destination file
remains. -/
def scpRecursiveTransfer (src dest : List String) : List String :=
  src ++ dest.filter (fun f => ¬ f ∈ src)

/-- Destination subtree after `rm -rf DEST`: empty. -/
def rmrfSubtree (_dest : List String) : List String := []

/-- Destination addon subtree after the alignment scp fallback
(ptv_satellite_alignment.py lines 48-57): `rm -rf` of the remote addon
folder followed by `scp -r` of the local one. -/
def alignFallbackTransfer (src dest : List String) : List String :=
  scpRecursiveTransfer src (rmrfSubtree dest)

/-! ### Concrete environments used to instantiate the theorems -/

/-- Run of `push_to_satellites` with one configured satellite and every
local check and remote call succeeding. -/
def okPushEnv : PushEnv where
  enableMasterPush := "true"
  slaveIP := fun i => if i.val = 0 then "10.0.0.1" else ""
  settingsExists := true
  cacheExists := true
  probe := fun _ => .exit 0
  mkdirCall := fun _ => .exit 0
  scpSettings := fun _ => .exit 0
  whichRsync := fun _ => 0
  rsyncCache := fun _ => .exit 0
  scpCache := fun _ => .exit 0

/-- Same as `okPushEnv` but with two configured satellites. -/
def okPushEnv2 : PushEnv :=
  { okPushEnv with
    slaveIP := fun i =>
      if i.val = 0 then "10.0.0.1" else if i.val = 1 then "10.0.0.2" else "" }

/-- Run of `satellite_alignment` with one configured satellite, both addon
paths present, rsync available, and every remote call succeeding. -/
def okAlignEnv : AlignEnv where
  enableSatelliteAlignment := "true"
  slaveIP := fun i => if i.val = 0 then "10.0.0.1" else ""
  pathExists := fun _ => true
  whichRsync := 0
  probe := fun _ => .exit 0
  rmCall := fun _ _ => .exit 0
  rsyncPush := fun _ _ => .exit 0
  scpPush := fun _ _ => .exit 0
  notifyCall := fun _ => .exit 0
  restartCall := fun _ => .exit 0

/-- Alignment run in which only the `script.paragontv` bundle exists
locally and `script.paragon` is absent. -/
def skipAlignEnv : AlignEnv :=
  { okAlignEnv with
    pathExists := fun p => p == "/storage/.kodi/addons/script.paragontv/" }

/-- Alignment run whose environment differs from `okAlignEnv` only in the
remote-call results of satellite `10.0.0.2`. -/
def failOtherAlignEnv : AlignEnv :=
  { okAlignEnv with
    probe := fun ip => if ip = "10.0.0.2" then .exit 255 else .exit 0
    rsyncPush := fun ip _ => if ip = "10.0.0.2" then .raised else .exit 0 }

/-- Push run with the local settings2.xml file missing. -/
def missingSrcPushEnv : PushEnv := { okPushEnv with settingsExists := false }

/-- Alignment run with no local addon path present. -/
def noPathsAlignEnv : AlignEnv := { okAlignEnv with pathExists := fun _ => false }

/-- Push run with the master-push feature flag disabled. -/
def disabledPushEnv : PushEnv := { okPushEnv with enableMasterPush := "false" }

/-- Alignment run with no satellite IP configured. -/
def noIPsAlignEnv : AlignEnv := { okAlignEnv with slaveIP := fun _ => "" }

/-- Alignment run in which satellite `10.0.0.1` is unreachable. -/
def unreachableAlignEnv : AlignEnv := { okAlignEnv with probe := fun _ => .exit 255 }

/-- Push run in which satellite `10.0.0.1` is unreachable. -/
def unreachablePushEnv : PushEnv := { okPushEnv with probe := fun _ => .exit 255 }

/-! ### Structural lemmas -/

theorem syncLoop_eq (f : String → NodeOutcome) :
    ∀ (ips : List String) (n : Nat),
      syncLoop f ips n
        = (n + ((ips.map f).filter (fun o => o.counted)).length, ips.map f) := by
  intro ips
  induction ips with
  | nil => intro n; simp [syncLoop]
  | cons ip rest ih =>
    intro n
    simp only [syncLoop, ih, List.map_cons, List.filter_cons]
    by_cases h : (f ip).counted
    · simp [h]; omega
    · simp [h]

/-- Normal-path unfolding of `satellite_alignment`: feature enabled, at
least one IP, at least one local addon path. -/
theorem satellite_alignment_proceed (env : AlignEnv)
    (h1 : env.enableSatelliteAlignment = "true")
    (h2 : configuredIPs env.slaveIP ≠ [])
    (h3 : ADDONS_TO_PUSH.filter (fun a => env.pathExists a.2) ≠ []) :
    satellite_alignment env
      = ⟨[.rsyncCheck],
         (configuredIPs env.slaveIP).map (alignNode env (env.whichRsync == 0)),
         (((configuredIPs env.slaveIP).map (alignNode env (env.whichRsync == 0))).filter
            (fun o => o.counted)).length,
         decide (0 < (((configuredIPs env.slaveIP).map
            (alignNode env (env.whichRsync == 0))).filter
            (fun o => o.counted)).length)⟩ := by
  simp [satellite_alignment, h1, h2, h3, syncLoop_eq]

/-- Normal-path unfolding of `push_to_satellites`: feature enabled, at
least one IP, both local sources present. -/
theorem push_to_satellites_proceed (env : PushEnv)
    (h1 : env.enableMasterPush = "true")
    (h2 : configuredIPs env.slaveIP ≠ [])
    (h3 : env.settingsExists = true)
    (h4 : env.cacheExists = true) :
    push_to_satellites env
      = ⟨[],
         (configuredIPs env.slaveIP).map (pushNode env),
         (((configuredIPs env.slaveIP).map (pushNode env)).filter
            (fun o => o.counted)).length,
         decide (0 < (((configuredIPs env.slaveIP).map (pushNode env)).filter
            (fun o => o.counted)).length)⟩ := by
  simp [push_to_satellites, h1, h2, h3, h4, syncLoop_eq]

/-- Every run of `satellite_alignment` is either an aborted run or the
normal-path record. -/
theorem satellite_alignment_cases (env : AlignEnv) :
    satellite_alignment env = abortRun
    ∨ satellite_alignment env
      = ⟨[.rsyncCheck],
         (configuredIPs env.slaveIP).map (alignNode env (env.whichRsync == 0)),
         (((configuredIPs env.slaveIP).map (alignNode env (env.whichRsync == 0))).filter
            (fun o => o.counted)).length,
         decide (0 < (((configuredIPs env.slaveIP).map
            (alignNode env (env.whichRsync == 0))).filter
            (fun o => o.counted)).length)⟩ := by
  by_cases h1 : env.enableSatelliteAlignment = "true"
  · by_cases h2 : configuredIPs env.slaveIP = []
    · left; simp [satellite_alignment, h2, ite_self]
    · by_cases h3 : ADDONS_TO_PUSH.filter (fun a => env.pathExists a.2) = []
      · left; simp [satellite_alignment, h2, h3, ite_self]
      · right; exact satellite_alignment_proceed env h1 h2 h3
  · left; simp [satellite_alignment, h1]

/-- Every run of `push_to_satellites` is either an aborted run or the
normal-path record. -/
theorem push_to_satellites_cases (env : PushEnv) :
    push_to_satellites env = abortRun
    ∨ push_to_satellites env
      = ⟨[],
         (configuredIPs env.slaveIP).map (pushNode env),
         (((configuredIPs env.slaveIP).map (pushNode env)).filter
            (fun o => o.counted)).length,
         decide (0 < (((configuredIPs env.slaveIP).map (pushNode env)).filter
            (fun o => o.counted)).length)⟩ := by
  by_cases h1 : env.enableMasterPush = "true"
  · by_cases h2 : configuredIPs env.slaveIP = []
    · left; simp [push_to_satellites, h2, ite_self]
    · by_cases h3 : env.settingsExists
      · by_cases h4 : env.cacheExists
        · right; exact push_to_satellites_proceed env h1 h2 h3 h4
        · left; simp [push_to_satellites, h2, h4, ite_self]
      · left; simp [push_to_satellites, h2, h3, ite_self]
  · left; simp [push_to_satellites, h1]

theorem abortRun_trace : abortRun.trace = [] := rfl

/-- Every command a unit push issues is of the shape its strategy allows. -/
theorem push_addon_events_unitEvent (env : AlignEnv) (ip : String) (u : Bool)
    (a : String × String) :
    ∀ e ∈ (push_addon_to_satellite env ip u a).1, unitEvent u e = true := by
  intro e he
  unfold push_addon_to_satellite at he
  split at he
  · simp at he
  · split at he
    next hu =>
      split at he <;>
        simp_all [unitEvent, Event.isRsyncTransfer]
    next hu =>
      have hu' : u = false := by simpa using hu
      subst hu'
      split at he
      · simp_all [unitEvent, Event.isRm, Event.isScpTransfer]
      · split at he <;>
          (simp only [List.mem_cons, List.not_mem_nil, or_false] at he
           rcases he with rfl | rfl <;> simp [unitEvent, Event.isRm, Event.isScpTransfer])

/-- Unit-push commands are never the strategy probe, the notification or
the restart. -/
theorem unitEvent_shape {u : Bool} {e : Event} (h : unitEvent u e = true) :
    e.isRestart = false ∧ e.isNotify = false ∧ e.isRsyncCheck = false
    ∧ (u = true → e.isScpTransfer = false ∧ e.isRm = false)
    ∧ (u = false → e.isRsyncTransfer = false) := by
  cases u <;> cases e <;>
    simp_all [unitEvent, Event.isRestart, Event.isNotify, Event.isRsyncCheck,
      Event.isRsyncTransfer, Event.isRm, Event.isScpTransfer]

/-- Commands issued by the inner unit loop all come from unit pushes. -/
theorem alignPushUnits_events_unitEvent (env : AlignEnv) (ip : String) (u : Bool) :
    ∀ (l : List (String × String)) (acc : Bool),
      ∀ e ∈ (alignPushUnits env ip u l acc).1, unitEvent u e = true := by
  intro l
  induction l with
  | nil => intro acc e he; simp [alignPushUnits] at he
  | cons a rest ih =>
    intro acc e he
    unfold alignPushUnits at he
    rcases hpa : push_addon_to_satellite env ip u a with ⟨evs, r⟩
    rw [hpa] at he
    cases r with
    | none =>
      exact push_addon_events_unitEvent env ip u a e (by rw [hpa]; exact he)
    | some ok =>
      simp only [List.mem_append] at he
      rcases he with he | he
      · exact push_addon_events_unitEvent env ip u a e (by rw [hpa]; exact he)
      · exact ih (acc && ok) e he

/-- When the inner unit loop reports `all_pushed`, the accumulator was
still true and every unit of the list reported success. -/
theorem alignPushUnits_some_true (env : AlignEnv) (ip : String) (u : Bool) :
    ∀ (l : List (String × String)) (acc : Bool) (evs : List Event),
      alignPushUnits env ip u l acc = (evs, some true) →
      acc = true ∧ ∀ a ∈ l, (push_addon_to_satellite env ip u a).2 = some true := by
  intro l
  induction l with
  | nil =>
    intro acc evs h
    simp only [alignPushUnits, Prod.mk.injEq, Option.some.injEq] at h
    exact ⟨h.2, by simp⟩
  | cons a rest ih =>
    intro acc evs h
    unfold alignPushUnits at h
    rcases hpa : push_addon_to_satellite env ip u a with ⟨evs1, r⟩
    rw [hpa] at h
    cases r with
    | none => simp at h
    | some ok =>
      have h2 : (alignPushUnits env ip u rest (acc && ok)).2 = some true := by
        have := congrArg Prod.snd h
        simpa using this
      rcases hrec : alignPushUnits env ip u rest (acc && ok) with ⟨evs2, r2⟩
      rw [hrec] at h2
      simp only [] at h2
      obtain ⟨hacc, hall⟩ := ih (acc && ok) evs2 (by rw [hrec, h2])
      obtain ⟨ha, ho⟩ : acc = true ∧ ok = true := by simpa using hacc
      refine ⟨ha, ?_⟩
      intro b hb
      rcases List.mem_cons.mp hb with rfl | hb
      · rw [hpa, ho]
      · exact hall b hb

/-- A unit push over an existing local path reports success exactly when
its transfer call exited with status 0. -/
theorem push_addon_ok (env : AlignEnv) (ip : String) (u : Bool) (a : String × String)
    (hp : env.pathExists a.2 = true)
    (h : (push_addon_to_satellite env ip u a).2 = some true) :
    (if u then env.rsyncPush ip a.1 else env.scpPush ip a.1).isOk = true := by
  unfold push_addon_to_satellite at h
  split at h
  · simp_all
  · split at h
    next hu =>
      rw [if_pos hu]
      split at h <;> simp_all [CallRes.isOk]
    next hu =>
      rw [if_neg hu]
      split at h
      · simp at h
      · split at h <;> simp_all [CallRes.isOk]

theorem countP_flatten_zero (p : Event → Bool) :
    ∀ L : List (List Event), (∀ l ∈ L, l.countP p = 0) → L.flatten.countP p = 0 := by
  intro L
  induction L with
  | nil => intro; simp
  | cons l L ih =>
    intro h
    simp only [List.flatten_cons, List.countP_append]
    rw [h l (by simp), ih (fun l' hl' => h l' (by simp [hl']))]

/-- A failed connectivity test ends the iteration with only the probe
command issued and the node not counted (both variants, the `continue`
after the ssh echo test). -/
theorem alignNode_probe_fail (env : AlignEnv) (u : Bool) (ip : String) (c : Int)
    (h : env.probe ip = .exit c) (hc : c ≠ 0) :
    alignNode env u ip = ⟨ip, [.probe ip], false⟩ := by
  simp [alignNode, h, hc]

theorem pushNode_probe_fail (env : PushEnv) (ip : String) (c : Int)
    (h : env.probe ip = .exit c) (hc : c ≠ 0) :
    pushNode env ip = ⟨ip, [.probe ip], false⟩ := by
  simp [pushNode, h, hc]

/-- A raised connectivity-test call ends the iteration like a failed one. -/
theorem alignNode_probe_raised (env : AlignEnv) (u : Bool) (ip : String)
    (h : env.probe ip = .raised) :
    alignNode env u ip = ⟨ip, [.probe ip], false⟩ := by
  simp [alignNode, h]

/-- A counted alignment node passed the connectivity test with exit 0. -/
theorem alignNode_counted_probe (env : AlignEnv) (u : Bool) (ip : String)
    (h : (alignNode env u ip).counted = true) : env.probe ip = .exit 0 := by
  rcases hp : env.probe ip with _ | c
  · rw [alignNode_probe_raised env u ip hp] at h
    simp at h
  · by_cases hc : c = 0
    · rw [hc]
    · rw [alignNode_probe_fail env u ip c hp hc] at h
      simp at h

theorem alignNode_reachable_eq (env : AlignEnv) (u : Bool) (ip : String)
    (h : env.probe ip = .exit 0) :
    alignNode env u ip = alignNodeReachable env u ip := by
  simp [alignNode, h]

/-- Unfolding of the reachable-node body on the unit-loop result. -/
theorem alignNodeReachable_some (env : AlignEnv) (u : Bool) (ip : String)
    (evs : List Event) (b : Bool)
    (h : alignPushUnits env ip u ADDONS_TO_PUSH true = (evs, some b)) :
    alignNodeReachable env u ip
      = if b then ⟨ip, .probe ip :: (evs ++ alignFinishEvents env ip), true⟩
        else ⟨ip, .probe ip :: evs, false⟩ := by
  unfold alignNodeReachable
  rw [h]

/-- When the remote notification call does not raise, the finish step
issues the notification and then the restart, once each. -/
theorem alignFinishEvents_eq (env : AlignEnv) (ip : String)
    (h : env.notifyCall ip ≠ .raised) :
    alignFinishEvents env ip = [.notifyCmd ip, .restartCmd ip] := by
  unfold alignFinishEvents
  rcases hn : env.notifyCall ip with _ | c
  · exact absurd hn h
  · rfl

/-- The unit loop never issues a restart command. -/
theorem alignPushUnits_countP_restart (env : AlignEnv) (ip : String) (u : Bool)
    (evs : List Event) (r : Option Bool)
    (h : alignPushUnits env ip u ADDONS_TO_PUSH true = (evs, r)) :
    evs.countP Event.isRestart = 0 := by
  rw [List.countP_eq_zero]
  intro e he
  have hu := alignPushUnits_events_unitEvent env ip u ADDONS_TO_PUSH true e
    (by rw [h]; exact he)
  simp [(unitEvent_shape hu).1]

/-- Every command an alignment iteration issues is the probe, a unit-push
command, the notification or the restart. -/
theorem alignNode_events_mem (env : AlignEnv) (u : Bool) (ip : String) :
    ∀ e ∈ (alignNode env u ip).events,
      e = .probe ip ∨ unitEvent u e = true ∨ e = .notifyCmd ip ∨ e = .restartCmd ip := by
  intro e he
  rcases hp : env.probe ip with _ | c
  · rw [alignNode_probe_raised env u ip hp] at he
    simp at he; left; exact he
  · by_cases hc : c = 0
    · rw [hc] at hp
      rw [alignNode_reachable_eq env u ip hp] at he
      rcases hu : alignPushUnits env ip u ADDONS_TO_PUSH true with ⟨evs, r⟩
      have hunit : ∀ e' ∈ evs, unitEvent u e' = true := fun e' he' =>
        alignPushUnits_events_unitEvent env ip u ADDONS_TO_PUSH true e'
          (by rw [hu]; exact he')
      cases r with
      | none =>
        have hr : alignNodeReachable env u ip = ⟨ip, .probe ip :: evs, false⟩ := by
          simp [alignNodeReachable, hu]
        rw [hr] at he
        simp only [List.mem_cons] at he
        rcases he with rfl | he
        · left; rfl
        · right; left; exact hunit e he
      | some b =>
        rw [alignNodeReachable_some env u ip evs b hu] at he
        cases b with
        | true =>
          rw [if_pos rfl] at he
          simp only [List.mem_cons, List.mem_append] at he
          rcases he with rfl | he | he
          · left; rfl
          · right; left; exact hunit e he
          · unfold alignFinishEvents at he
            rcases hn : env.notifyCall ip with _ | c2
            · rw [hn] at he
              simp at he
              right; right; left; exact he
            · rw [hn] at he
              simp at he
              rcases he with rfl | rfl
              · right; right; left; rfl
              · right; right; right; rfl
        | false =>
          rw [if_neg (by simp)] at he
          simp only [List.mem_cons] at he
          rcases he with rfl | he
          · left; rfl
          · right; left; exact hunit e he
    · rw [alignNode_probe_fail env u ip c hp hc] at he
      simp at he; left; exact he

/-- An alignment iteration never evaluates the strategy probe. -/
theorem alignNode_countP_rsyncCheck (env : AlignEnv) (u : Bool) (ip : String) :
    (alignNode env u ip).events.countP Event.isRsyncCheck = 0 := by
  rw [List.countP_eq_zero]
  intro e he
  rcases alignNode_events_mem env u ip e he with rfl | h | rfl | rfl
  · simp [Event.isRsyncCheck]
  · simp [(unitEvent_shape h).2.2.1]
  · simp [Event.isRsyncCheck]
  · simp [Event.isRsyncCheck]

/-- Strategy uniformity of an alignment iteration: with rsync selected no
scp or rm command is issued, without it no rsync command is issued. -/
theorem alignNode_uniform (env : AlignEnv) (ip : String) :
    ((alignNode env true ip).events.countP Event.isScpTransfer = 0
      ∧ (alignNode env true ip).events.countP Event.isRm = 0)
    ∧ (alignNode env false ip).events.countP Event.isRsyncTransfer = 0 := by
  refine ⟨⟨?_, ?_⟩, ?_⟩ <;> rw [List.countP_eq_zero] <;> intro e he
  · rcases alignNode_events_mem env true ip e he with rfl | h | rfl | rfl
    · simp [Event.isScpTransfer]
    · simp [((unitEvent_shape h).2.2.2.1 rfl).1]
    · simp [Event.isScpTransfer]
    · simp [Event.isScpTransfer]
  · rcases alignNode_events_mem env true ip e he with rfl | h | rfl | rfl
    · simp [Event.isRm]
    · simp [((unitEvent_shape h).2.2.2.1 rfl).2]
    · simp [Event.isRm]
    · simp [Event.isRm]
  · rcases alignNode_events_mem env false ip e he with rfl | h | rfl | rfl
    · simp [Event.isRsyncTransfer]
    · simp [(unitEvent_shape h).2.2.2.2 rfl]
    · simp [Event.isRsyncTransfer]
    · simp [Event.isRsyncTransfer]

/-- A counted alignment node has a unit loop that reported `all_pushed`. -/
theorem alignNode_counted_units (env : AlignEnv) (u : Bool) (ip : String)
    (h : (alignNode env u ip).counted = true) :
    ∃ evs, alignPushUnits env ip u ADDONS_TO_PUSH true = (evs, some true) := by
  have hp := alignNode_counted_probe env u ip h
  rw [alignNode_reachable_eq env u ip hp] at h
  rcases hu : alignPushUnits env ip u ADDONS_TO_PUSH true with ⟨evs, r⟩
  cases r with
  | none =>
    have hr : alignNodeReachable env u ip = ⟨ip, .probe ip :: evs, false⟩ := by
      simp [alignNodeReachable, hu]
    rw [hr] at h
    simp at h
  | some b =>
    cases b with
    | true => exact ⟨evs, rfl⟩
    | false =>
      rw [alignNodeReachable_some env u ip evs false hu, if_neg (by simp)] at h
      simp at h

/-- Unit pushes are a function of this satellite's oracle entries alone. -/
theorem push_addon_congr (env env' : AlignEnv) (ip : String) (u : Bool)
    (a : String × String)
    (hpath : env.pathExists = env'.pathExists)
    (hrm : env.rmCall ip = env'.rmCall ip)
    (hrs : env.rsyncPush ip = env'.rsyncPush ip)
    (hsc : env.scpPush ip = env'.scpPush ip) :
    push_addon_to_satellite env ip u a = push_addon_to_satellite env' ip u a := by
  unfold push_addon_to_satellite
  rw [hpath, congrFun hrm a.1, congrFun hrs a.1, congrFun hsc a.1]

theorem alignPushUnits_congr (env env' : AlignEnv) (ip : String) (u : Bool)
    (hpath : env.pathExists = env'.pathExists)
    (hrm : env.rmCall ip = env'.rmCall ip)
    (hrs : env.rsyncPush ip = env'.rsyncPush ip)
    (hsc : env.scpPush ip = env'.scpPush ip) :
    ∀ (l : List (String × String)) (acc : Bool),
      alignPushUnits env ip u l acc = alignPushUnits env' ip u l acc := by
  intro l
  induction l with
  | nil => intro acc; rfl
  | cons a rest ih =>
    intro acc
    rcases hpa : push_addon_to_satellite env' ip u a with ⟨evs, r⟩
    have hpa' : push_addon_to_satellite env ip u a = (evs, r) := by
      rw [push_addon_congr env env' ip u a hpath hrm hrs hsc, hpa]
    cases r with
    | none => simp [alignPushUnits, hpa, hpa']
    | some ok => simp [alignPushUnits, hpa, hpa', ih (acc && ok)]

/-- Isolation of one alignment iteration: its outcome is a function of the
run-level locals and this satellite's own oracle entries only (the ignored
result of the restart call in particular plays no part). -/
theorem alignNode_congr (env env' : AlignEnv) (u : Bool) (ip : String)
    (hpath : env.pathExists = env'.pathExists)
    (hprobe : env.probe ip = env'.probe ip)
    (hrm : env.rmCall ip = env'.rmCall ip)
    (hrs : env.rsyncPush ip = env'.rsyncPush ip)
    (hsc : env.scpPush ip = env'.scpPush ip)
    (hn : env.notifyCall ip = env'.notifyCall ip) :
    alignNode env u ip = alignNode env' u ip := by
  have hunits := alignPushUnits_congr env env' ip u hpath hrm hrs hsc ADDONS_TO_PUSH true
  have hfin : alignFinishEvents env ip = alignFinishEvents env' ip := by
    unfold alignFinishEvents; rw [hn]
  have hreach : alignNodeReachable env u ip = alignNodeReachable env' u ip := by
    unfold alignNodeReachable; rw [hunits, hfin]
  unfold alignNode
  rw [hprobe, hreach]

/-- Isolation of one `push_to_satellites` iteration. -/
theorem pushNode_congr (env env' : PushEnv) (ip : String)
    (hprobe : env.probe ip = env'.probe ip)
    (hmk : env.mkdirCall ip = env'.mkdirCall ip)
    (hset : env.scpSettings ip = env'.scpSettings ip)
    (hw : env.whichRsync ip = env'.whichRsync ip)
    (hrc : env.rsyncCache ip = env'.rsyncCache ip)
    (hscc : env.scpCache ip = env'.scpCache ip) :
    pushNode env ip = pushNode env' ip := by
  unfold pushNode pushNodeReachable pushCacheStep
  rw [hprobe, hmk, hset, hw, hrc, hscc]

/-- Exhaustive list of command-trace shapes of one `push_to_satellites`
iteration. -/
theorem pushNode_events_shape (env : PushEnv) (ip : String) :
    (pushNode env ip).events = [.probe ip]
    ∨ (pushNode env ip).events = [.probe ip, .mkdirCmd ip]
    ∨ (pushNode env ip).events = [.probe ip, .mkdirCmd ip, .scpTransfer ip "settings2.xml"]
    ∨ (pushNode env ip).events
        = [.probe ip, .mkdirCmd ip, .scpTransfer ip "settings2.xml", .rsyncCheck,
           .rsyncTransfer ip "cache"]
    ∨ (pushNode env ip).events
        = [.probe ip, .mkdirCmd ip, .scpTransfer ip "settings2.xml", .rsyncCheck,
           .scpTransfer ip "cache"] := by
  rcases hp : env.probe ip with _ | c
  · left; simp [pushNode, hp]
  · by_cases hc : c = 0
    · rcases hm : env.mkdirCall ip with _ | c1
      · right; left; simp [pushNode, pushNodeReachable, hp, hc, hm]
      · rcases hs : env.scpSettings ip with _ | c2
        · right; right; left
          simp [pushNode, pushNodeReachable, hp, hc, hm, hs]
        · by_cases hc2 : c2 = 0
          · by_cases hw : env.whichRsync ip == 0
            · right; right; right; left
              simp [pushNode, pushNodeReachable, pushCacheStep, hp, hc, hm, hs, hc2, hw]
            · right; right; right; right
              simp [pushNode, pushNodeReachable, pushCacheStep, hp, hc, hm, hs, hc2, hw]
          · right; right; left
            simp [pushNode, pushNodeReachable, hp, hc, hm, hs, hc2]
    · left; simp [pushNode, hp, hc]

/-- A `push_to_satellites` iteration never issues a restart, a remote
notification or an rm command. -/
theorem pushNode_countP_restart (env : PushEnv) (ip : String) :
    (pushNode env ip).events.countP Event.isRestart = 0
    ∧ (pushNode env ip).events.countP Event.isNotify = 0
    ∧ (pushNode env ip).events.countP Event.isRm = 0 := by
  rcases pushNode_events_shape env ip with h | h | h | h | h <;> rw [h] <;>
    simp [List.countP_cons, Event.isRestart, Event.isNotify, Event.isRm]

/-- A `push_to_satellites` iteration evaluates the strategy probe at most
once. -/
theorem pushNode_countP_rsyncCheck (env : PushEnv) (ip : String) :
    (pushNode env ip).events.countP Event.isRsyncCheck ≤ 1 := by
  rcases pushNode_events_shape env ip with h | h | h | h | h <;> rw [h] <;>
    simp [List.countP_cons, Event.isRsyncCheck]

theorem pushNode_probe_raised (env : PushEnv) (ip : String)
    (h : env.probe ip = .raised) :
    pushNode env ip = ⟨ip, [.probe ip], false⟩ := by
  simp [pushNode, h]

/-- Exact success condition of one `push_to_satellites` iteration: probe
exited 0, the mkdir call did not raise (its exit code is ignored), the
settings scp exited 0, and the strategy-dependent cache transfer exited 0. -/
theorem pushNode_counted_eq (env : PushEnv) (ip : String) :
    (pushNode env ip).counted
      = ((env.probe ip).isOk && (env.mkdirCall ip).notRaised
         && (env.scpSettings ip).isOk
         && (if env.whichRsync ip == 0 then env.rsyncCache ip
             else env.scpCache ip).isOk) := by
  rcases hp : env.probe ip with _ | c
  · simp [pushNode, hp, CallRes.isOk]
  · by_cases hc : c = 0
    · rcases hm : env.mkdirCall ip with _ | c1
      · simp [pushNode, pushNodeReachable, hp, hc, hm, CallRes.isOk, CallRes.notRaised]
      · rcases hs : env.scpSettings ip with _ | c2
        · simp [pushNode, pushNodeReachable, hp, hc, hm, hs, CallRes.isOk, CallRes.notRaised]
        · by_cases hc2 : c2 = 0
          · by_cases hw : env.whichRsync ip == 0 <;>
              simp [pushNode, pushNodeReachable, pushCacheStep, hp, hc, hm, hs, hc2, hw,
                CallRes.isOk, CallRes.notRaised]
          · simp [pushNode, pushNodeReachable, hp, hc, hm, hs, hc2, beq_iff_eq,
              CallRes.isOk, CallRes.notRaised]
    · simp [pushNode, hp, hc, beq_iff_eq, CallRes.isOk]

/-- Restart dispatch of an alignment iteration whose probe succeeded and
whose notification call did not raise: exactly one restart command when
`all_pushed`, none otherwise; the node is counted exactly when
`all_pushed`. -/
theorem alignNode_restart_count (env : AlignEnv) (u : Bool) (ip : String)
    (evs : List Event) (b : Bool)
    (hp : env.probe ip = .exit 0)
    (hu : alignPushUnits env ip u ADDONS_TO_PUSH true = (evs, some b))
    (hn : env.notifyCall ip ≠ .raised) :
    (alignNode env u ip).events.countP Event.isRestart = (if b then 1 else 0)
    ∧ (alignNode env u ip).counted = b := by
  rw [alignNode_reachable_eq env u ip hp, alignNodeReachable_some env u ip evs b hu,
    alignFinishEvents_eq env ip hn]
  have hz := alignPushUnits_countP_restart env ip u evs (some b) hu
  cases b <;>
    simp [List.countP_cons, List.countP_append, hz, Event.isRestart]

/-- No run of `push_to_satellites` ever issues a restart command. -/
theorem push_to_satellites_no_restart (env : PushEnv) :
    (push_to_satellites env).trace.countP Event.isRestart = 0 := by
  rcases push_to_satellites_cases env with h | h <;> rw [h]
  · rfl
  · show (List.countP Event.isRestart
      ([] ++ (((configuredIPs env.slaveIP).map (pushNode env)).map
        NodeOutcome.events).flatten)) = 0
    rw [List.nil_append]
    apply countP_flatten_zero
    intro l hl
    simp only [List.map_map, List.mem_map] at hl
    obtain ⟨ip', _, rfl⟩ := hl
    exact (pushNode_countP_restart env ip').1

/-! ### Claims -/

/-- C1 (counterexample): in a `push_to_satellites` run whose single node
is reachable and transfers every payload unit (settings2.xml and the cache
folder) successfully, the node is counted as succeeded, yet zero restart
commands are dispatched to it — the script contains no restart dispatch at
all, so "restart dispatch count is 1 iff all units succeeded" is false for
this variant. -/
theorem C1_counterexample :
    (push_to_satellites okPushEnv).outcomes.map NodeOutcome.counted = [true]
    ∧ (push_to_satellites okPushEnv).successCount = 1
    ∧ (push_to_satellites okPushEnv).trace.countP Event.isRestart = 0 := by
  decide

/-- C1 (amended): in the `satellite_alignment` variant, a node whose probe
exited 0, whose unit loop returned `all_pushed = b` and whose notification
dispatch did not raise gets exactly one restart command when `b` and none
otherwise, and is counted exactly when `b`; in the `push_to_satellites`
variant no node and no run ever gets a restart command. -/
theorem C1_restart_dispatch :
    (∀ (env : AlignEnv) (u : Bool) (ip : String) (evs : List Event) (b : Bool),
        env.probe ip = .exit 0 →
        alignPushUnits env ip u ADDONS_TO_PUSH true = (evs, some b) →
        env.notifyCall ip ≠ .raised →
        (alignNode env u ip).events.countP Event.isRestart = (if b then 1 else 0)
        ∧ (alignNode env u ip).counted = b)
    ∧ (∀ (env : PushEnv) (ip : String),
        (pushNode env ip).events.countP Event.isRestart = 0)
    ∧ (∀ env : PushEnv, (push_to_satellites env).trace.countP Event.isRestart = 0) :=
  ⟨fun env u ip evs b hp hu hn => alignNode_restart_count env u ip evs b hp hu hn,
   fun env ip => (pushNode_countP_restart env ip).1,
   fun env => push_to_satellites_no_restart env⟩

theorem C1_restart_dispatch_witness :
    (alignNode okAlignEnv true "10.0.0.1").events.countP Event.isRestart
      = (if true then 1 else 0)
    ∧ (alignNode okAlignEnv true "10.0.0.1").counted = true :=
  C1_restart_dispatch.1 okAlignEnv true "10.0.0.1"
    [.rsyncTransfer "10.0.0.1" "script.paragontv",
     .rsyncTransfer "10.0.0.1" "script.paragon"]
    true (by decide) (by decide) (by decide)

/-- C2 (counterexample): the `satellite_alignment` RecursiveCopy fallback
issues `rm -rf` on the destination addon folder before the recursive copy,
so a stale destination file absent from the source does not survive the
transfer: with source `[default.py]` and destination
`[default.py, stale.xml]`, the file `stale.xml` is present before and gone
after. -/
theorem C2_counterexample :
    (push_addon_to_satellite okAlignEnv "10.0.0.1" false
        ("script.paragontv", "/storage/.kodi/addons/script.paragontv/")).1
      = [.rmCmd "10.0.0.1" "script.paragontv",
         .scpTransfer "10.0.0.1" "script.paragontv"]
    ∧ "stale.xml" ∈ ["default.py", "stale.xml"]
    ∧ ¬ "stale.xml" ∈ ["default.py"]
    ∧ ¬ "stale.xml" ∈ alignFallbackTransfer ["default.py"] ["default.py", "stale.xml"] := by
  decide

/-- C2 (amended): the recursive scp copy itself is purely additive (every
destination file survives, every source file arrives) and the mirror
transfer deletes extraneous destination files; the `push_to_satellites`
variant never issues an rm command, so its RecursiveCopy fallback is
additive as claimed — but the `satellite_alignment` fallback precedes each
existing unit's copy with exactly one `rm -rf` of the destination addon
folder, after which a stale destination file is gone. -/
theorem C2_transfer_semantics :
    (∀ (src dest : List String) (f : String), f ∈ dest → f ∈ scpRecursiveTransfer src dest)
    ∧ (∀ (src dest : List String) (f : String), f ∈ src → f ∈ scpRecursiveTransfer src dest)
    ∧ (∀ (src dest : List String) (f : String), ¬ f ∈ src → ¬ f ∈ mirrorTransfer src dest)
    ∧ (∀ (src dest : List String) (f : String), ¬ f ∈ src → ¬ f ∈ alignFallbackTransfer src dest)
    ∧ (∀ (env : PushEnv) (ip : String), (pushNode env ip).events.countP Event.isRm = 0)
    ∧ (∀ (env : AlignEnv) (ip : String) (a : String × String),
        env.pathExists a.2 = true →
        (push_addon_to_satellite env ip false a).1.countP Event.isRm = 1
        ∧ (push_addon_to_satellite env ip true a).1.countP Event.isRm = 0) := by
  refine ⟨?_, ?_, ?_, ?_, ?_, ?_⟩
  · intro src dest f h
    by_cases hs : f ∈ src <;>
      simp [scpRecursiveTransfer, List.mem_append, List.mem_filter, h, hs]
  · intro src dest f h
    simp [scpRecursiveTransfer, List.mem_append, h]
  · intro src dest f h
    simpa [mirrorTransfer] using h
  · intro src dest f h
    simpa [alignFallbackTransfer, rmrfSubtree, scpRecursiveTransfer] using h
  · intro env ip
    exact (pushNode_countP_restart env ip).2.2
  · intro env ip a hp
    constructor
    · rcases hrm : env.rmCall ip a.1 with _ | c
      · simp [push_addon_to_satellite, hp, hrm, List.countP_cons, Event.isRm]
      · rcases hsc : env.scpPush ip a.1 with _ | c2 <;>
          simp [push_addon_to_satellite, hp, hrm, hsc, List.countP_cons, Event.isRm]
    · rcases hrs : env.rsyncPush ip a.1 with _ | c <;>
        simp [push_addon_to_satellite, hp, hrs, List.countP_cons, Event.isRm]

theorem C2_transfer_semantics_witness :
    "stale.xml" ∈ scpRecursiveTransfer ["default.py"] ["default.py", "stale.xml"]
    ∧ ¬ "stale.xml" ∈ mirrorTransfer ["default.py"] ["default.py", "stale.xml"]
    ∧ (push_addon_to_satellite okAlignEnv "10.0.0.1" false
        ("script.paragontv", "/storage/.kodi/addons/script.paragontv/")).1.countP
          Event.isRm = 1 :=
  ⟨C2_transfer_semantics.1 ["default.py"] ["default.py", "stale.xml"] "stale.xml" (by decide),
   C2_transfer_semantics.2.2.1 ["default.py"] ["default.py", "stale.xml"] "stale.xml" (by decide),
   (C2_transfer_semantics.2.2.2.2.2 okAlignEnv "10.0.0.1"
      ("script.paragontv", "/storage/.kodi/addons/script.paragontv/") (by decide)).1⟩

/-- C3 (counterexample): a `push_to_satellites` run with two reachable,
fully succeeding nodes evaluates the local `which rsync` strategy probe
twice — once per node, inside the per-satellite loop — not exactly once
per run. -/
theorem C3_counterexample :
    (push_to_satellites okPushEnv2).outcomes.map NodeOutcome.counted = [true, true]
    ∧ (push_to_satellites okPushEnv2).trace.countP Event.isRsyncCheck = 2 := by
  decide

/-- C3 (amended): `satellite_alignment` evaluates the strategy probe
exactly once per run, before any per-node work (it is the single
pre-loop command, and no per-node segment contains one), and applies the
chosen strategy uniformly (with rsync no scp or rm command is ever issued
for a node, without rsync no rsync command); `push_to_satellites` instead
re-evaluates the probe inside the loop, at most once per node. -/
theorem C3_strategy_selection :
    (∀ env : AlignEnv, env.enableSatelliteAlignment = "true" →
        configuredIPs env.slaveIP ≠ [] →
        ADDONS_TO_PUSH.filter (fun a => env.pathExists a.2) ≠ [] →
        (satellite_alignment env).preEvents = [.rsyncCheck]
        ∧ ∀ o ∈ (satellite_alignment env).outcomes,
            o.events.countP Event.isRsyncCheck = 0)
    ∧ (∀ (env : AlignEnv) (ip : String),
        ((alignNode env true ip).events.countP Event.isScpTransfer = 0
          ∧ (alignNode env true ip).events.countP Event.isRm = 0)
        ∧ (alignNode env false ip).events.countP Event.isRsyncTransfer = 0)
    ∧ (∀ (env : PushEnv) (ip : String),
        (pushNode env ip).events.countP Event.isRsyncCheck ≤ 1) := by
  refine ⟨?_, fun env ip => alignNode_uniform env ip,
    fun env ip => pushNode_countP_rsyncCheck env ip⟩
  intro env h1 h2 h3
  rw [satellite_alignment_proceed env h1 h2 h3]
  refine ⟨rfl, ?_⟩
  intro o ho
  simp only [List.mem_map] at ho
  obtain ⟨ip, _, rfl⟩ := ho
  exact alignNode_countP_rsyncCheck env _ ip

theorem C3_strategy_selection_witness :
    (satellite_alignment okAlignEnv).preEvents = [.rsyncCheck]
    ∧ ∀ o ∈ (satellite_alignment okAlignEnv).outcomes,
        o.events.countP Event.isRsyncCheck = 0 :=
  C3_strategy_selection.1 okAlignEnv rfl (by decide) (by decide)

/-- C4: a node is counted as succeeded only if its probe exited 0 and
every payload unit the run actually schedules transferred with exit
status 0 — for `satellite_alignment` every configured addon whose local
path exists (an absent path is skipped, not scheduled; see C10), for
`push_to_satellites` the settings scp and the strategy-dependent cache
transfer (and the mkdir call did not raise); an unreachable node issues
zero transfer commands and is not counted. -/
theorem C4_success_requires_all_units :
    (∀ (env : AlignEnv) (u : Bool) (ip : String),
        (alignNode env u ip).counted = true →
        env.probe ip = .exit 0
        ∧ ∀ a ∈ ADDONS_TO_PUSH, env.pathExists a.2 = true →
            (if u then env.rsyncPush ip a.1 else env.scpPush ip a.1).isOk = true)
    ∧ (∀ (env : PushEnv) (ip : String),
        (pushNode env ip).counted = true →
        (env.probe ip).isOk = true ∧ (env.mkdirCall ip).notRaised = true
        ∧ (env.scpSettings ip).isOk = true
        ∧ (if env.whichRsync ip == 0 then env.rsyncCache ip
           else env.scpCache ip).isOk = true)
    ∧ (∀ (env : AlignEnv) (u : Bool) (ip : String) (c : Int),
        env.probe ip = .exit c → c ≠ 0 →
        (alignNode env u ip).events.countP Event.isTransfer = 0
        ∧ (alignNode env u ip).counted = false)
    ∧ (∀ (env : PushEnv) (ip : String) (c : Int),
        env.probe ip = .exit c → c ≠ 0 →
        (pushNode env ip).events.countP Event.isTransfer = 0
        ∧ (pushNode env ip).counted = false) := by
  refine ⟨?_, ?_, ?_, ?_⟩
  · intro env u ip h
    refine ⟨alignNode_counted_probe env u ip h, ?_⟩
    obtain ⟨evs, hu⟩ := alignNode_counted_units env u ip h
    obtain ⟨-, hall⟩ := alignPushUnits_some_true env ip u ADDONS_TO_PUSH true evs hu
    intro a ha hp
    exact push_addon_ok env ip u a hp (hall a ha)
  · intro env ip h
    have hb : ((env.probe ip).isOk && (env.mkdirCall ip).notRaised
        && (env.scpSettings ip).isOk
        && (if env.whichRsync ip == 0 then env.rsyncCache ip
            else env.scpCache ip).isOk) = true := by
      rw [← pushNode_counted_eq env ip]; exact h
    simp only [Bool.and_eq_true] at hb
    exact ⟨hb.1.1.1, hb.1.1.2, hb.1.2, hb.2⟩
  · intro env u ip c hp hc
    rw [alignNode_probe_fail env u ip c hp hc]
    exact ⟨by simp [List.countP_cons, Event.isTransfer, Event.isRsyncTransfer,
      Event.isScpTransfer], rfl⟩
  · intro env ip c hp hc
    rw [pushNode_probe_fail env ip c hp hc]
    exact ⟨by simp [List.countP_cons, Event.isTransfer, Event.isRsyncTransfer,
      Event.isScpTransfer], rfl⟩

theorem C4_success_requires_all_units_witness :
    (okAlignEnv.probe "10.0.0.1" = .exit 0
      ∧ ∀ a ∈ ADDONS_TO_PUSH, okAlignEnv.pathExists a.2 = true →
          (if true then okAlignEnv.rsyncPush "10.0.0.1" a.1
           else okAlignEnv.scpPush "10.0.0.1" a.1).isOk = true)
    ∧ ((alignNode unreachableAlignEnv true "10.0.0.1").events.countP Event.isTransfer = 0
        ∧ (alignNode unreachableAlignEnv true "10.0.0.1").counted = false) :=
  ⟨C4_success_requires_all_units.1 okAlignEnv true "10.0.0.1" (by decide),
   C4_success_requires_all_units.2.2.1 unreachableAlignEnv true "10.0.0.1" 255 rfl
     (by decide)⟩

/-- C5: nodes are processed independently. One iteration's outcome is a
function of the run-level locals and that satellite's own oracle entries
alone (so a failing node's outcome is identical whatever any other node
does), and on the normal path the outcome list is the pointwise map of the
iteration body over every configured node in order — no failure, raised
call included, removes a later node from the list. -/
theorem C5_node_isolation :
    (∀ (env env' : AlignEnv) (u : Bool) (ip : String),
        env.pathExists = env'.pathExists →
        env.probe ip = env'.probe ip →
        env.rmCall ip = env'.rmCall ip →
        env.rsyncPush ip = env'.rsyncPush ip →
        env.scpPush ip = env'.scpPush ip →
        env.notifyCall ip = env'.notifyCall ip →
        alignNode env u ip = alignNode env' u ip)
    ∧ (∀ (env env' : PushEnv) (ip : String),
        env.probe ip = env'.probe ip →
        env.mkdirCall ip = env'.mkdirCall ip →
        env.scpSettings ip = env'.scpSettings ip →
        env.whichRsync ip = env'.whichRsync ip →
        env.rsyncCache ip = env'.rsyncCache ip →
        env.scpCache ip = env'.scpCache ip →
        pushNode env ip = pushNode env' ip)
    ∧ (∀ env : AlignEnv, env.enableSatelliteAlignment = "true" →
        configuredIPs env.slaveIP ≠ [] →
        ADDONS_TO_PUSH.filter (fun a => env.pathExists a.2) ≠ [] →
        (satellite_alignment env).outcomes
          = (configuredIPs env.slaveIP).map (alignNode env (env.whichRsync == 0)))
    ∧ (∀ env : PushEnv, env.enableMasterPush = "true" →
        configuredIPs env.slaveIP ≠ [] →
        env.settingsExists = true → env.cacheExists = true →
        (push_to_satellites env).outcomes
          = (configuredIPs env.slaveIP).map (pushNode env)) := by
  refine ⟨?_, ?_, ?_, ?_⟩
  · intro env env' u ip hpath hprobe hrm hrs hsc hn
    exact alignNode_congr env env' u ip hpath hprobe hrm hrs hsc hn
  · intro env env' ip hprobe hmk hset hw hrc hscc
    exact pushNode_congr env env' ip hprobe hmk hset hw hrc hscc
  · intro env h1 h2 h3
    rw [satellite_alignment_proceed env h1 h2 h3]
  · intro env h1 h2 h3 h4
    rw [push_to_satellites_proceed env h1 h2 h3 h4]

theorem C5_node_isolation_witness :
    alignNode okAlignEnv true "10.0.0.1" = alignNode failOtherAlignEnv true "10.0.0.1"
    ∧ (satellite_alignment okAlignEnv).outcomes
        = (configuredIPs okAlignEnv.slaveIP).map
            (alignNode okAlignEnv (okAlignEnv.whichRsync == 0)) :=
  ⟨C5_node_isolation.1 okAlignEnv failOtherAlignEnv true "10.0.0.1" rfl (by decide)
      rfl (by funext nm; simp [okAlignEnv, failOtherAlignEnv]) rfl rfl,
   C5_node_isolation.2.2.1 okAlignEnv rfl (by decide) (by decide)⟩

/-- C6: a node whose connectivity probe exits non-zero gets no further
command of any kind in that run — its whole command segment is the single
probe, so its mkdir, transfer, rm, notification and restart counts are all
zero — and it is not counted; the loop structure (C5) continues with the
remaining nodes. -/
theorem C6_probe_failure_silences_node :
    (∀ (env : AlignEnv) (u : Bool) (ip : String) (c : Int),
        env.probe ip = .exit c → c ≠ 0 →
        alignNode env u ip = ⟨ip, [.probe ip], false⟩
        ∧ (alignNode env u ip).events.countP Event.isTransfer = 0
        ∧ (alignNode env u ip).events.countP Event.isRm = 0
        ∧ (alignNode env u ip).events.countP Event.isNotify = 0
        ∧ (alignNode env u ip).events.countP Event.isRestart = 0)
    ∧ (∀ (env : PushEnv) (ip : String) (c : Int),
        env.probe ip = .exit c → c ≠ 0 →
        pushNode env ip = ⟨ip, [.probe ip], false⟩
        ∧ (pushNode env ip).events.countP Event.isTransfer = 0
        ∧ (pushNode env ip).events.countP Event.isRsyncCheck = 0
        ∧ (pushNode env ip).events.countP Event.isRestart = 0) := by
  constructor
  · intro env u ip c hp hc
    have h := alignNode_probe_fail env u ip c hp hc
    rw [h]
    exact ⟨rfl, by simp [List.countP_cons, Event.isTransfer, Event.isRsyncTransfer,
        Event.isScpTransfer],
      by simp [List.countP_cons, Event.isRm],
      by simp [List.countP_cons, Event.isNotify],
      by simp [List.countP_cons, Event.isRestart]⟩
  · intro env ip c hp hc
    have h := pushNode_probe_fail env ip c hp hc
    rw [h]
    exact ⟨rfl, by simp [List.countP_cons, Event.isTransfer, Event.isRsyncTransfer,
        Event.isScpTransfer],
      by simp [List.countP_cons, Event.isRsyncCheck],
      by simp [List.countP_cons, Event.isRestart]⟩

theorem C6_probe_failure_silences_node_witness :
    (alignNode unreachableAlignEnv true "10.0.0.1"
        = ⟨"10.0.0.1", [.probe "10.0.0.1"], false⟩
      ∧ (alignNode unreachableAlignEnv true "10.0.0.1").events.countP Event.isTransfer = 0
      ∧ (alignNode unreachableAlignEnv true "10.0.0.1").events.countP Event.isRm = 0
      ∧ (alignNode unreachableAlignEnv true "10.0.0.1").events.countP Event.isNotify = 0
      ∧ (alignNode unreachableAlignEnv true "10.0.0.1").events.countP Event.isRestart = 0)
    ∧ (pushNode unreachablePushEnv "10.0.0.1"
        = ⟨"10.0.0.1", [.probe "10.0.0.1"], false⟩
      ∧ (pushNode unreachablePushEnv "10.0.0.1").events.countP Event.isTransfer = 0
      ∧ (pushNode unreachablePushEnv "10.0.0.1").events.countP Event.isRsyncCheck = 0
      ∧ (pushNode unreachablePushEnv "10.0.0.1").events.countP Event.isRestart = 0) :=
  ⟨C6_probe_failure_silences_node.1 unreachableAlignEnv true "10.0.0.1" 255 rfl (by decide),
   C6_probe_failure_silences_node.2 unreachablePushEnv "10.0.0.1" 255 rfl (by decide)⟩

/-- C7: a missing required local payload source aborts the whole run
before any node is contacted — for `push_to_satellites` when settings2.xml
or the cache folder is absent, for `satellite_alignment` when no
configured bundle root is present (individual bundle roots are optional,
spec §6; a single absent one is skipped, see C10) — and the aborted run
records no per-node outcome, issues no command and returns false. -/
theorem C7_missing_local_source_aborts :
    (∀ env : PushEnv, env.settingsExists = false ∨ env.cacheExists = false →
        push_to_satellites env = abortRun)
    ∧ (∀ env : AlignEnv, (∀ a ∈ ADDONS_TO_PUSH, env.pathExists a.2 = false) →
        satellite_alignment env = abortRun)
    ∧ abortRun.outcomes = [] ∧ abortRun.trace = [] ∧ abortRun.result = false := by
  refine ⟨?_, ?_, rfl, rfl, rfl⟩
  · intro env h
    unfold push_to_satellites
    rcases h with h | h <;> simp [h, ite_self]
  · intro env h
    have hf : ADDONS_TO_PUSH.filter (fun a => env.pathExists a.2) = [] := by
      rw [List.filter_eq_nil_iff]
      intro a ha
      simp [h a ha]
    unfold satellite_alignment
    simp [hf, ite_self]

theorem C7_missing_local_source_aborts_witness :
    push_to_satellites missingSrcPushEnv = abortRun
    ∧ satellite_alignment noPathsAlignEnv = abortRun :=
  ⟨C7_missing_local_source_aborts.1 missingSrcPushEnv (Or.inl rfl),
   C7_missing_local_source_aborts.2.1 noPathsAlignEnv (fun _ _ => rfl)⟩

/-- C8: in every run of either variant, the final `success_count` is
exactly the number of per-node outcomes that were counted (the nodes that
completed every push step), it never exceeds the number of configured
nodes, and the run's Boolean result is true exactly when it is positive. -/
theorem C8_fleet_aggregate :
    (∀ env : AlignEnv,
        (satellite_alignment env).successCount
          = ((satellite_alignment env).outcomes.filter (fun o => o.counted)).length
        ∧ (satellite_alignment env).successCount ≤ (configuredIPs env.slaveIP).length
        ∧ ((satellite_alignment env).result = true
            ↔ 0 < (satellite_alignment env).successCount))
    ∧ (∀ env : PushEnv,
        (push_to_satellites env).successCount
          = ((push_to_satellites env).outcomes.filter (fun o => o.counted)).length
        ∧ (push_to_satellites env).successCount ≤ (configuredIPs env.slaveIP).length
        ∧ ((push_to_satellites env).result = true
            ↔ 0 < (push_to_satellites env).successCount)) := by
  constructor
  · intro env
    rcases satellite_alignment_cases env with h | h <;> rw [h]
    · exact ⟨rfl, Nat.zero_le _, by simp [abortRun]⟩
    · refine ⟨rfl, ?_, by simp⟩
      calc (((configuredIPs env.slaveIP).map
              (alignNode env (env.whichRsync == 0))).filter (fun o => o.counted)).length
          ≤ ((configuredIPs env.slaveIP).map
              (alignNode env (env.whichRsync == 0))).length :=
            List.length_filter_le _ _
        _ = (configuredIPs env.slaveIP).length := by simp
  · intro env
    rcases push_to_satellites_cases env with h | h <;> rw [h]
    · exact ⟨rfl, Nat.zero_le _, by simp [abortRun]⟩
    · refine ⟨rfl, ?_, by simp⟩
      calc (((configuredIPs env.slaveIP).map (pushNode env)).filter
              (fun o => o.counted)).length
          ≤ ((configuredIPs env.slaveIP).map (pushNode env)).length :=
            List.length_filter_le _ _
        _ = (configuredIPs env.slaveIP).length := by simp

/-- C9: a run with the feature flag not set to "true" or with no non-empty
satellite slot is the no-op aborted run: result false, no per-node
outcome, and an empty command trace — no remote channel is ever opened. -/
theorem C9_noop_runs :
    (∀ env : PushEnv,
        env.enableMasterPush ≠ "true" ∨ configuredIPs env.slaveIP = [] →
        push_to_satellites env = abortRun)
    ∧ (∀ env : AlignEnv,
        env.enableSatelliteAlignment ≠ "true" ∨ configuredIPs env.slaveIP = [] →
        satellite_alignment env = abortRun)
    ∧ abortRun.outcomes = [] ∧ abortRun.trace = [] ∧ abortRun.result = false := by
  refine ⟨?_, ?_, rfl, rfl, rfl⟩
  · intro env h
    unfold push_to_satellites
    rcases h with h | h <;> simp [h, ite_self]
  · intro env h
    unfold satellite_alignment
    rcases h with h | h <;> simp [h, ite_self]

theorem C9_noop_runs_witness :
    push_to_satellites disabledPushEnv = abortRun
    ∧ satellite_alignment noIPsAlignEnv = abortRun :=
  ⟨C9_noop_runs.1 disabledPushEnv (Or.inl (by decide)),
   C9_noop_runs.2.1 noIPsAlignEnv (Or.inr (by decide))⟩

/-- C10: in `satellite_alignment`, pushing a configured bundle whose local
path does not exist returns success without issuing any command
("Not a failure, just skip"); consequently a reachable node whose only
other bundle transfers cleanly is counted as fully succeeded and receives
a restart command, although the absent bundle was never transferred to
it. -/
theorem C10_missing_bundle_silently_skipped :
    ∀ (env : AlignEnv) (ip : String),
      env.pathExists "/storage/.kodi/addons/script.paragon/" = false →
      push_addon_to_satellite env ip true
          ("script.paragon", "/storage/.kodi/addons/script.paragon/") = ([], some true)
      ∧ (env.probe ip = .exit 0 →
          env.pathExists "/storage/.kodi/addons/script.paragontv/" = true →
          env.rsyncPush ip "script.paragontv" = .exit 0 →
          env.notifyCall ip ≠ .raised →
          (alignNode env true ip).counted = true
          ∧ (alignNode env true ip).events.countP Event.isRestart = 1
          ∧ (alignNode env true ip).events.countP
              (Event.isTransferOf "script.paragon") = 0) := by
  intro env ip hskip
  constructor
  · simp [push_addon_to_satellite, hskip]
  · intro hp hpt hrs hn
    have hu : alignPushUnits env ip true ADDONS_TO_PUSH true
        = ([.rsyncTransfer ip "script.paragontv"], some true) := by
      simp [alignPushUnits, push_addon_to_satellite, ADDONS_TO_PUSH, hskip, hpt, hrs]
    have heq : alignNode env true ip
        = ⟨ip, .probe ip :: ([.rsyncTransfer ip "script.paragontv"]
            ++ [.notifyCmd ip, .restartCmd ip]), true⟩ := by
      rw [alignNode_reachable_eq env true ip hp,
        alignNodeReachable_some env true ip _ true hu, if_pos rfl,
        alignFinishEvents_eq env ip hn]
    rw [heq]
    refine ⟨rfl, ?_, ?_⟩ <;>
      simp [List.countP_cons, Event.isRestart, Event.isTransferOf]

theorem C10_missing_bundle_silently_skipped_witness :
    push_addon_to_satellite skipAlignEnv "10.0.0.1" true
        ("script.paragon", "/storage/.kodi/addons/script.paragon/") = ([], some true)
    ∧ (alignNode skipAlignEnv true "10.0.0.1").counted = true
    ∧ (alignNode skipAlignEnv true "10.0.0.1").events.countP Event.isRestart = 1
    ∧ (alignNode skipAlignEnv true "10.0.0.1").events.countP
        (Event.isTransferOf "script.paragon") = 0 := by
  obtain ⟨h1, h2⟩ := C10_missing_bundle_silently_skipped skipAlignEnv "10.0.0.1" (by decide)
  exact ⟨h1, h2 (by decide) (by decide) (by decide) (by decide)⟩

end PTV
